/-
  Verification of the undo/redo history state machine and the
  generation-request layer of the ai-virtual-try-on application.

  The definitions below are a shallow embedding of src/App.tsx
  (workflow controller: handleGenerateTryOn, handleGenerateBgChange,
  handleUndo, handleRedo, useHistoryState) and src/geminiService.ts
  (dressModel, changeBackground): JavaScript strings become String,
  nullable values become Option, array indices become Int (the cursor
  can be -1), thrown errors become Except, and the asynchronous remote
  call is modelled by an explicit RemoteOutcome argument describing
  what the external capability did.
-/
import Mathlib

/-- Fixed template segment from the source (geminiService.ts). -/
def tryOnPromptSeg1 : String :=
  "\n      You are an expert photorealistic virtual stylist. Your primary goal is to create a final image that is indistinguishable from a real photograph.\n\n      Your task is to seamlessly dress the person from the first image (the model) with the clothes from the second image (the outfit).\n\n      **Core Instructions:**\n      1.  **Preserve Realism:** The final output **must** look like a real photograph, not an AI generation. Avoid any \"airbrushed\" or overly smooth AI look.\n      2.  **Model & Background Integrity:** The person\x27s pose, facial expression, body shape, and skin tone from the first image must be preserved perfectly. Do not alter the model in any way. "

/-- Fixed template segment from the source (geminiService.ts). -/
def tryOnPromptSeg2 : String :=
  "\n      3.  **Outfit Integration:**\n          *   Identify the complete outfit from the second image.\n          *   Realistically transfer this outfit onto the person in the first image.\n          *   **Crucially, the clothing must conform naturally to the person\x27s body and pose.** Pay close attention to how fabric would drape, fold, and crease in reality.\n          *   "

/-- Fixed template segment from the source (geminiService.ts). -/
def tryOnPromptSeg3 : String :=
  "\n      4.  **Lighting and Shadows:** The lighting on the new clothes (shadows, highlights) must perfectly match the lighting conditions of the original model\x27s photo and the new background (if any). This is key to making the image look real.\n      5.  **Texture and Detail:** Maintain the original texture and details of the fabric from the clothing image.\n      6.  **Seamless Edges:** Ensure the edges where the clothing meets the person\x27s skin or the background are clean and perfectly blended.\n      7.  **Final Output:** The result must be a high-quality, photorealistic image with no added text, watermarks, or any other artifacts.\n    "

/-- Fixed template segment from the source (geminiService.ts). -/
def replacedBackgroundSeg1 : String :=
  "The original background must be replaced with a new one described as: \""

/-- Fixed template segment from the source (geminiService.ts). -/
def replacedBackgroundSeg2 : String :=
  "\". The new background should be photorealistic and blend seamlessly with the model."

/-- Fixed template segment from the source (geminiService.ts). -/
def bgImagePromptSeg1 : String :=
  "\n                You are a photorealistic image editing expert. Your goal is to create a final image that is indistinguishable from a real photograph.\n\n                Your task is to replace the background of the first image (the source) with the second image (the new background).\n\n                **Core Instructions:**\n                1.  **Preserve Subject:** The main subject (person, object, animal) in the foreground of the source image **must be perfectly preserved**. Do not alter its appearance, pose, lighting, or details in any way.\n                2.  **Use New Background:** Use the second image as the new background for the subject from the first image.\n                3.  **Seamless Integration:** The new background must blend seamlessly with the foreground subject. The lighting, shadows, and perspective of the new background must be adjusted to perfectly match the original subject to create a cohesive and realistic final image.\n                4.  **Additional Instructions:** "

/-- Fixed template segment from the source (geminiService.ts). -/
def bgImagePromptSeg2 : String :=
  "\n                5.  **Clean Edges:** Ensure the edges around the subject are clean and natural, with no \"cut-out\" or artificial look. Pay special attention to hair or fine details.\n                6.  **Final Output:** The result must be a high-quality, photorealistic image with no added text, watermarks, or any other artifacts.\n            "

/-- Fixed template segment from the source (geminiService.ts). -/
def followInstructionsSeg1 : String :=
  "Follow these additional user instructions for blending: \""

/-- Fixed template segment from the source (geminiService.ts). -/
def followInstructionsSeg2 : String :=
  "\""

/-- Fixed template segment from the source (geminiService.ts). -/
def ensureCompositionClause : String :=
  "Ensure the composition is natural and believable."

/-- Fixed template segment from the source (geminiService.ts). -/
def bgTextPromptSeg1 : String :=
  "\n                You are a photorealistic image editing expert. Your goal is to create a final image that is indistinguishable from a real photograph.\n\n                Your task is to replace the background of the provided image with a new one based on the user\x27s description, while leaving the foreground subject completely untouched.\n\n                **Core Instructions:**\n                1.  **Preserve Subject:** The main subject (person, object, animal) in the foreground of the image **must be perfectly preserved**. Do not alter its appearance, pose, lighting, or details in any way.\n                2.  **Identify Background:** Accurately identify and isolate the entire background from the foreground subject.\n                3.  **Generate New Background:** Generate a new, photorealistic background based on this description: \""

/-- Fixed template segment from the source (geminiService.ts). -/
def bgTextPromptSeg2 : String :=
  "\".\n                4.  **Seamless Integration:** The new background must blend seamlessly with the foreground subject. The lighting, shadows, and perspective of the new background must perfectly match the original subject to create a cohesive and realistic final image.\n                5.  **Clean Edges:** Ensure the edges around the subject are clean and natural, with no \"cut-out\" or artificial look. Pay special attention to hair or fine details.\n                6.  **Final Output:** The result must be a high-quality, photorealistic image with no added text, watermarks, or any other artifacts.\n            "


/-- Whitespace recognizer used to model String.prototype.trim. -/
def isWsChar (c : Char) : Bool :=
  c = ' ' ∨ c = '\t' ∨ c = '\n' ∨ c = '\r'

/-- Model of JavaScript String.prototype.trim, by structural recursion on
the character list so that it evaluates inside the kernel. -/
def jsTrim (s : String) : String :=
  ⟨((s.data.dropWhile isWsChar).reverse.dropWhile isWsChar).reverse⟩

/-- Is pat a prefix of l (character lists)? -/
def charsPrefixOf : List Char → List Char → Bool
  | [], _ => true
  | _ :: _, [] => false
  | a :: as, b :: bs => a = b && charsPrefixOf as bs

/-- Does pat occur as a contiguous run inside l? -/
def charsInfixOf (pat : List Char) : List Char → Bool
  | [] => charsPrefixOf pat []
  | b :: bs => charsPrefixOf pat (b :: bs) || charsInfixOf pat bs

/-- Does s contain pat as a substring? -/
def strContains (s pat : String) : Bool :=
  charsInfixOf pat.data s.data


/-- An uploaded image, as produced by fileToBase64 (fileUtils): opaque
base64 payload plus its content type. -/
structure Base64File where
  base64 : String
  mimeType : String
  deriving Repr, DecidableEq

/-- A request part sent to the generation capability: either inline
binary data with a content type, or instruction text
(the untyped part union of geminiService.ts). -/
inductive ReqPart where
  | inlinePart (data : String) (mimeType : String)
  | textPart (s : String)
  deriving Repr, DecidableEq

/-- Inline image payload carried by a response part. -/
structure InlineData where
  data : String
  mimeType : String
  deriving Repr, DecidableEq

/-- One part of the remote response; inlineData is absent on text-only
parts (response.candidates[0].content.parts elements). -/
structure ResponsePart where
  inlineData : Option InlineData
  deriving Repr, DecidableEq

/-- What the external generation capability did on one invocation:
the transport threw (with some message), or it returned a response
whose candidates[0].content.parts chain is either missing (none) or a
concrete list of parts. -/
inductive RemoteOutcome where
  | callError (msg : String)
  | success (parts : Option (List ResponsePart))
  deriving Repr, DecidableEq

/-- response.candidates?.[0]?.content?.parts?.find(part => part.inlineData):
the first response part carrying inline data, if any. -/
def extractImage (partList : Option (List ResponsePart)) : Option InlineData :=
  match partList with
  | none => none
  | some parts =>
    match parts.find? (fun part => part.inlineData.isSome) with
    | some part => part.inlineData
    | none => none

/-- Fit clauses of dressModel: FitAdjustment = default | tighter | looser. -/
inductive FitAdjustment where
  | default
  | tighter
  | looser
  deriving Repr, DecidableEq

/-- fitInstruction of dressModel: empty for default, the form-fitting
sentence for tighter, the relaxed sentence for looser. -/
def fitInstruction (fit : FitAdjustment) : String :=
  match fit with
  | .tighter => "The clothing should be adjusted to have a tighter, more form-fitting appearance on the model."
  | .looser => "The clothing should be adjusted to have a looser, more relaxed, and comfortable fit on the model."
  | .default => ""

/-- backgroundInstruction of dressModel: the preserve-original sentence,
overridden by the replace-with-description sentence when
backgroundPrompt is truthy and trims to a non-empty string. -/
def backgroundInstruction (backgroundPrompt : String) : String :=
  if backgroundPrompt ≠ "" ∧ 0 < (jsTrim backgroundPrompt).length then
    replacedBackgroundSeg1 ++ backgroundPrompt ++ replacedBackgroundSeg2
  else
    "The original background from the first image must be preserved perfectly."

/-- The try-on instruction text of dressModel: the template literal with
backgroundInstruction and fitInstruction interpolated. -/
def tryOnPrompt (fit : FitAdjustment) (backgroundPrompt : String) : String :=
  tryOnPromptSeg1 ++ backgroundInstruction backgroundPrompt ++ tryOnPromptSeg2
    ++ fitInstruction fit ++ tryOnPromptSeg3

/-- The ordered request parts assembled by dressModel:
[inline(model), inline(clothing), text(prompt)]. -/
def dressModelRequestParts (modelImage clothingImage : Base64File)
    (fit : FitAdjustment) (backgroundPrompt : String) : List ReqPart :=
  [ReqPart.inlinePart modelImage.base64 modelImage.mimeType,
   ReqPart.inlinePart clothingImage.base64 clothingImage.mimeType,
   ReqPart.textPart (tryOnPrompt fit backgroundPrompt)]

/-- The no-image error message thrown inside the try block of dressModel. -/
def dressModelNoImageMsg : String :=
  "AI failed to generate an image. Please try again with different images."

/-- The message of the error rethrown by the catch block of dressModel. -/
def dressModelGenericMsg : String :=
  "Failed to generate image from AI. The model may have refused to process the request. Check your images and try again."

/-- The try-block of dressModel after the remote call: a transport error
propagates; otherwise the first inline part is returned, and the
no-image error is thrown when there is none. -/
def dressModelTryBody (outcome : RemoteOutcome) : Except String String :=
  match outcome with
  | .callError msg => .error msg
  | .success partList =>
    match extractImage partList with
    | some d => .ok d.data
    | none => .error dressModelNoImageMsg

/-- dressModel as observed by its caller: any error escaping the try
block (transport error or the internal no-image throw) is caught and
replaced by the generic failure message. -/
def dressModelResult (outcome : RemoteOutcome) : Except String String :=
  match dressModelTryBody outcome with
  | .ok d => .ok d
  | .error _ => .error dressModelGenericMsg

/-- The instruction text of changeBackground when a background image is
provided: the second-image template, whose additional-instructions slot
holds the follow-instructions sentence embedding the user text when the
prompt is non-empty (truthy) and the fixed ensure-composition sentence
otherwise. -/
def bgImagePromptText (backgroundPrompt : String) : String :=
  bgImagePromptSeg1
    ++ (if backgroundPrompt = "" then ensureCompositionClause
        else followInstructionsSeg1 ++ backgroundPrompt ++ followInstructionsSeg2)
    ++ bgImagePromptSeg2

/-- The instruction text of changeBackground when only a text prompt is
provided: the generate-from-description template with the user text
embedded directly. -/
def bgTextPromptText (backgroundPrompt : String) : String :=
  bgTextPromptSeg1 ++ backgroundPrompt ++ bgTextPromptSeg2

/-- The ordered request parts assembled by changeBackground: the source
image is pushed first, the background image (when present) second, and
the instruction text last. -/
def changeBackgroundParts (sourceImage : Base64File) (backgroundPrompt : String)
    (backgroundImage : Option Base64File) : List ReqPart :=
  match backgroundImage with
  | some bg =>
    [ReqPart.inlinePart sourceImage.base64 sourceImage.mimeType,
     ReqPart.inlinePart bg.base64 bg.mimeType,
     ReqPart.textPart (bgImagePromptText backgroundPrompt)]
  | none =>
    [ReqPart.inlinePart sourceImage.base64 sourceImage.mimeType,
     ReqPart.textPart (bgTextPromptText backgroundPrompt)]

/-- The guard error message thrown by changeBackground before any remote
call. -/
def bgGuardMsg : String :=
  "A background description or a background image is required."

/-- The no-image error message thrown inside the try block of
changeBackground. -/
def bgNoImageMsg : String :=
  "AI failed to generate an image. Please try again with a different image or prompt."

/-- The message of the error rethrown by the catch block of
changeBackground. -/
def bgGenericMsg : String :=
  "Failed to change background from AI. The model may have refused to process the request. Check your image and try again."

/-- The try-block of changeBackground after the remote call (same shape
as dressModelTryBody, with the mode-specific no-image message). -/
def changeBackgroundTryBody (outcome : RemoteOutcome) : Except String String :=
  match outcome with
  | .callError msg => .error msg
  | .success partList =>
    match extractImage partList with
    | some d => .ok d.data
    | none => .error bgNoImageMsg

/-- changeBackground as observed by its caller: the synchronous guard
((!backgroundPrompt || backgroundPrompt.trim().length === 0) &&
!backgroundImage) throws before the try block and hence before any
remote call; inside the try block any error is caught and replaced by
the generic failure message. -/
def changeBackgroundResult (backgroundPrompt : String)
    (backgroundImage : Option Base64File) (outcome : RemoteOutcome) :
    Except String String :=
  if (backgroundPrompt = "" ∨ jsTrim backgroundPrompt = "") ∧ backgroundImage = none then
    .error bgGuardMsg
  else
    match changeBackgroundTryBody outcome with
    | .ok d => .ok d
    | .error _ => .error bgGenericMsg

/-- Per-workflow controller state of App.tsx: the history entry list,
the cursor (historyIndex, -1 when empty), the workflow error message,
the loading flag, and the active CSS filter. -/
structure WorkflowState where
  history : List String
  historyIndex : Int
  errorMsg : Option String
  isLoading : Bool
  activeFilter : String
  deriving Repr, DecidableEq

/-- JavaScript array.slice(0, e) with a possibly negative end index. -/
def sliceTo (l : List String) (e : Int) : List String :=
  if 0 ≤ e then l.take e.toNat
  else l.take ((l.length : Int) + e).toNat

/-- The validation message of handleGenerateTryOn. -/
def tryOnValidationMsg : String :=
  "Please upload both a model image and a clothing image."

/-- handleGenerateTryOn of App.tsx: guard on missing images, then set
loading/clear error/reset filter, call dressModel, and on success
truncate the history at the cursor, append the data URL of the returned
image and move the cursor to the new last index; on failure record the
error message; finally clear the loading flag. -/
def handleGenerateTryOn (modelImage clothingImage : Option Base64File)
    (fit : FitAdjustment) (tryOnBackgroundPrompt : String)
    (outcome : RemoteOutcome) (s : WorkflowState) : WorkflowState :=
  if modelImage = none ∨ clothingImage = none then
    { s with errorMsg := some tryOnValidationMsg }
  else
    match dressModelResult outcome with
    | .ok generatedImage =>
      let newImage := "data:image/png;base64," ++ generatedImage
      let newHistory := sliceTo s.history (s.historyIndex + 1) ++ [newImage]
      { history := newHistory
        historyIndex := (newHistory.length : Int) - 1
        errorMsg := none
        isLoading := false
        activeFilter := "none" }
    | .error msg =>
      { s with errorMsg := some msg, isLoading := false, activeFilter := "none" }

/-- The two validation messages of handleGenerateBgChange. -/
def bgSourceValidationMsg : String :=
  "Please upload a source image."

/-- Second validation message of handleGenerateBgChange (no background
image and an empty/whitespace prompt). -/
def bgPromptValidationMsg : String :=
  "Please either upload a new background image or describe the background you want."

/-- handleGenerateBgChange of App.tsx: guard on a missing source image,
then on (!backgroundImage && !bgChangePrompt.trim()), then call
changeBackground and update the history exactly as the try-on handler
does. -/
def handleGenerateBgChange (sourceImage backgroundImage : Option Base64File)
    (bgChangePrompt : String) (outcome : RemoteOutcome) (s : WorkflowState) :
    WorkflowState :=
  if sourceImage = none then
    { s with errorMsg := some bgSourceValidationMsg }
  else if backgroundImage = none ∧ jsTrim bgChangePrompt = "" then
    { s with errorMsg := some bgPromptValidationMsg }
  else
    match changeBackgroundResult bgChangePrompt backgroundImage outcome with
    | .ok generatedImage =>
      let newImage := "data:image/png;base64," ++ generatedImage
      let newHistory := sliceTo s.history (s.historyIndex + 1) ++ [newImage]
      { history := newHistory
        historyIndex := (newHistory.length : Int) - 1
        errorMsg := none
        isLoading := false
        activeFilter := "none" }
    | .error msg =>
      { s with errorMsg := some msg, isLoading := false, activeFilter := "none" }

/-- handleUndo of App.tsx (one workflow): decrement the cursor and reset
the filter when the cursor is positive, otherwise do nothing. -/
def handleUndo (s : WorkflowState) : WorkflowState :=
  if 0 < s.historyIndex then
    { s with historyIndex := s.historyIndex - 1, activeFilter := "none" }
  else s

/-- handleRedo of App.tsx (one workflow): increment the cursor and reset
the filter when the cursor is below the last index, otherwise do
nothing. -/
def handleRedo (s : WorkflowState) : WorkflowState :=
  if s.historyIndex < (s.history.length : Int) - 1 then
    { s with historyIndex := s.historyIndex + 1, activeFilter := "none" }
  else s

/-- The derived current image: history[historyIndex] ?? null. -/
def resultImage (s : WorkflowState) : Option String :=
  if s.historyIndex < 0 then none
  else s.history.get? s.historyIndex.toNat

/-- One user action on the try-on workflow, with the remote outcome a
generate action would observe. -/
inductive TryOnOp where
  | generate (modelImage clothingImage : Option Base64File)
      (fit : FitAdjustment) (backgroundPrompt : String) (outcome : RemoteOutcome)
  | undo
  | redo

/-- One user action on the background-change workflow. -/
inductive BgOp where
  | generate (sourceImage backgroundImage : Option Base64File)
      (bgChangePrompt : String) (outcome : RemoteOutcome)
  | undo
  | redo

/-- Apply one try-on action to the workflow state. -/
def stepTryOn (op : TryOnOp) (s : WorkflowState) : WorkflowState :=
  match op with
  | .generate mi ci fit p o => handleGenerateTryOn mi ci fit p o s
  | .undo => handleUndo s
  | .redo => handleRedo s

/-- Apply one background-change action to the workflow state. -/
def stepBg (op : BgOp) (s : WorkflowState) : WorkflowState :=
  match op with
  | .generate src bg p o => handleGenerateBgChange src bg p o s
  | .undo => handleUndo s
  | .redo => handleRedo s

/-- Run a sequence of try-on actions. -/
def runTryOn (ops : List TryOnOp) (s : WorkflowState) : WorkflowState :=
  ops.foldl (fun t op => stepTryOn op t) s

/-- Run a sequence of background-change actions. -/
def runBg (ops : List BgOp) (s : WorkflowState) : WorkflowState :=
  ops.foldl (fun t op => stepBg op t) s

/-- The history invariant: the cursor lies in [-1, entries.length - 1]. -/
def ValidHistory (s : WorkflowState) : Prop :=
  -1 ≤ s.historyIndex ∧ s.historyIndex ≤ (s.history.length : Int) - 1

instance (s : WorkflowState) : Decidable (ValidHistory s) :=
  inferInstanceAs (Decidable (_ ∧ _))

/-- The state produced by the shared success path of both generate
handlers. -/
def genSuccessState (s : WorkflowState) (d : String) : WorkflowState :=
  let newHistory := sliceTo s.history (s.historyIndex + 1) ++ ["data:image/png;base64," ++ d]
  { history := newHistory
    historyIndex := (newHistory.length : Int) - 1
    errorMsg := none
    isLoading := false
    activeFilter := "none" }

theorem handleGenerateTryOn_ok (mi ci : Base64File) (fit : FitAdjustment)
    (p : String) (o : RemoteOutcome) (d : String) (s : WorkflowState)
    (ho : dressModelResult o = .ok d) :
    handleGenerateTryOn (some mi) (some ci) fit p o s = genSuccessState s d := by
  unfold handleGenerateTryOn genSuccessState
  rw [if_neg (by simp), ho]

theorem handleGenerateTryOn_err (mi ci : Base64File) (fit : FitAdjustment)
    (p : String) (o : RemoteOutcome) (m : String) (s : WorkflowState)
    (ho : dressModelResult o = .error m) :
    handleGenerateTryOn (some mi) (some ci) fit p o s
      = { s with errorMsg := some m, isLoading := false, activeFilter := "none" } := by
  unfold handleGenerateTryOn
  rw [if_neg (by simp), ho]

theorem handleGenerateBgChange_ok (src : Base64File) (bg : Option Base64File)
    (q : String) (o : RemoteOutcome) (d : String) (s : WorkflowState)
    (hg : ¬ (bg = none ∧ jsTrim q = ""))
    (ho : changeBackgroundResult q bg o = .ok d) :
    handleGenerateBgChange (some src) bg q o s = genSuccessState s d := by
  unfold handleGenerateBgChange genSuccessState
  rw [if_neg (by simp), if_neg hg, ho]

theorem handleGenerateBgChange_err (src : Base64File) (bg : Option Base64File)
    (q : String) (o : RemoteOutcome) (m : String) (s : WorkflowState)
    (hg : ¬ (bg = none ∧ jsTrim q = ""))
    (ho : changeBackgroundResult q bg o = .error m) :
    handleGenerateBgChange (some src) bg q o s
      = { s with errorMsg := some m, isLoading := false, activeFilter := "none" } := by
  unfold handleGenerateBgChange
  rw [if_neg (by simp), if_neg hg, ho]

theorem changeBackground_guardFires (q : String) (o : RemoteOutcome)
    (hq : jsTrim q = "") :
    changeBackgroundResult q none o = .error bgGuardMsg := by
  unfold changeBackgroundResult
  rw [if_pos ⟨Or.inr hq, rfl⟩]

theorem bgOk_appGuard (q : String) (bg : Option Base64File) (o : RemoteOutcome)
    (d : String) (ho : changeBackgroundResult q bg o = .ok d) :
    ¬ (bg = none ∧ jsTrim q = "") := by
  rintro ⟨hb, hq⟩
  subst hb
  rw [changeBackground_guardFires q o hq] at ho
  exact Except.noConfusion ho

theorem genSuccessState_valid (s : WorkflowState) (d : String) :
    ValidHistory (genSuccessState s d) := by
  unfold genSuccessState ValidHistory
  simp only [List.length_append, List.length_cons, List.length_nil]
  constructor <;> omega

theorem handleUndo_valid (s : WorkflowState) (h : ValidHistory s) :
    ValidHistory (handleUndo s) := by
  rcases h with ⟨h1, h2⟩
  unfold handleUndo
  split
  · rename_i hpos
    exact ⟨by show -1 ≤ s.historyIndex - 1; omega,
           by show s.historyIndex - 1 ≤ (s.history.length : Int) - 1; omega⟩
  · exact ⟨h1, h2⟩

theorem handleRedo_valid (s : WorkflowState) (h : ValidHistory s) :
    ValidHistory (handleRedo s) := by
  rcases h with ⟨h1, h2⟩
  unfold handleRedo
  split
  · rename_i hlt
    exact ⟨by show (-1 : Int) ≤ s.historyIndex + 1; omega,
           by show s.historyIndex + 1 ≤ (s.history.length : Int) - 1; omega⟩
  · exact ⟨h1, h2⟩

theorem handleGenerateTryOn_valid (mi ci : Option Base64File)
    (fit : FitAdjustment) (p : String) (o : RemoteOutcome) (s : WorkflowState)
    (h : ValidHistory s) : ValidHistory (handleGenerateTryOn mi ci fit p o s) := by
  rcases mi with _ | mi
  · unfold handleGenerateTryOn
    rw [if_pos (Or.inl rfl)]
    exact h
  rcases ci with _ | ci
  · unfold handleGenerateTryOn
    rw [if_pos (Or.inr rfl)]
    exact h
  cases ho : dressModelResult o with
  | ok d => rw [handleGenerateTryOn_ok mi ci fit p o d s ho]; exact genSuccessState_valid s d
  | error m => rw [handleGenerateTryOn_err mi ci fit p o m s ho]; exact h

theorem handleGenerateBgChange_valid (src bg : Option Base64File)
    (q : String) (o : RemoteOutcome) (s : WorkflowState)
    (h : ValidHistory s) : ValidHistory (handleGenerateBgChange src bg q o s) := by
  rcases src with _ | src
  · unfold handleGenerateBgChange
    rw [if_pos rfl]
    exact h
  by_cases hg : bg = none ∧ jsTrim q = ""
  · unfold handleGenerateBgChange
    rw [if_neg (by simp), if_pos hg]
    exact h
  cases ho : changeBackgroundResult q bg o with
  | ok d => rw [handleGenerateBgChange_ok src bg q o d s hg ho]; exact genSuccessState_valid s d
  | error m => rw [handleGenerateBgChange_err src bg q o m s hg ho]; exact h

theorem stepTryOn_valid (op : TryOnOp) (s : WorkflowState) (h : ValidHistory s) :
    ValidHistory (stepTryOn op s) := by
  cases op with
  | generate mi ci fit p o => exact handleGenerateTryOn_valid mi ci fit p o s h
  | undo => exact handleUndo_valid s h
  | redo => exact handleRedo_valid s h

theorem stepBg_valid (op : BgOp) (s : WorkflowState) (h : ValidHistory s) :
    ValidHistory (stepBg op s) := by
  cases op with
  | generate src bg q o => exact handleGenerateBgChange_valid src bg q o s h
  | undo => exact handleUndo_valid s h
  | redo => exact handleRedo_valid s h

theorem runTryOn_valid (ops : List TryOnOp) (s : WorkflowState)
    (h : ValidHistory s) : ValidHistory (runTryOn ops s) := by
  induction ops generalizing s with
  | nil => exact h
  | cons op rest ih =>
    rw [runTryOn, List.foldl_cons]
    exact ih (stepTryOn op s) (stepTryOn_valid op s h)

theorem runBg_valid (ops : List BgOp) (s : WorkflowState)
    (h : ValidHistory s) : ValidHistory (runBg ops s) := by
  induction ops generalizing s with
  | nil => exact h
  | cons op rest ih =>
    rw [runBg, List.foldl_cons]
    exact ih (stepBg op s) (stepBg_valid op s h)

/-- Claim C1: starting from any valid state (including the empty state
entries = [], cursor = -1), every sequence of generate/undo/redo actions
keeps the cursor within [-1, entries.length - 1], in both workflows;
moreover undo is a no-op when cursor ≤ 0 and otherwise decrements the
cursor, redo is a no-op when cursor ≥ entries.length - 1 and otherwise
increments it, and a successful generate sets the cursor to the last
index of the new entry list. -/
theorem cursorStaysInRange (s : WorkflowState) (hs : ValidHistory s)
    (tops : List TryOnOp) (bops : List BgOp) :
    ValidHistory (runTryOn tops s)
    ∧ ValidHistory (runBg bops s)
    ∧ (s.historyIndex ≤ 0 → handleUndo s = s)
    ∧ (0 < s.historyIndex → (handleUndo s).historyIndex = s.historyIndex - 1
        ∧ (handleUndo s).history = s.history)
    ∧ ((s.history.length : Int) - 1 ≤ s.historyIndex → handleRedo s = s)
    ∧ (s.historyIndex < (s.history.length : Int) - 1 →
        (handleRedo s).historyIndex = s.historyIndex + 1
        ∧ (handleRedo s).history = s.history)
    ∧ (∀ (mi ci : Base64File) (fit : FitAdjustment) (p : String)
        (o : RemoteOutcome) (d : String), dressModelResult o = .ok d →
        (handleGenerateTryOn (some mi) (some ci) fit p o s).historyIndex
          = ((handleGenerateTryOn (some mi) (some ci) fit p o s).history.length : Int) - 1)
    ∧ (∀ (src : Base64File) (bg : Option Base64File) (q : String)
        (o : RemoteOutcome) (d : String), changeBackgroundResult q bg o = .ok d →
        (handleGenerateBgChange (some src) bg q o s).historyIndex
          = ((handleGenerateBgChange (some src) bg q o s).history.length : Int) - 1) := by
  refine ⟨runTryOn_valid tops s hs, runBg_valid bops s hs, ?_, ?_, ?_, ?_, ?_, ?_⟩
  · intro hle
    unfold handleUndo
    rw [if_neg (by omega)]
  · intro hpos
    unfold handleUndo
    rw [if_pos hpos]
    exact ⟨rfl, rfl⟩
  · intro hge
    unfold handleRedo
    rw [if_neg (by omega)]
  · intro hlt
    unfold handleRedo
    rw [if_pos hlt]
    exact ⟨rfl, rfl⟩
  · intro mi ci fit p o d ho
    rw [handleGenerateTryOn_ok mi ci fit p o d s ho]
    rfl
  · intro src bg q o d ho
    rw [handleGenerateBgChange_ok src bg q o d s (bgOk_appGuard q bg o d ho) ho]
    rfl

/-- Concrete inputs exercising cursorStaysInRange: a generate, an undo
and a redo starting from the empty state. -/
theorem cursorStaysInRange_witness :
    ValidHistory (runTryOn
      [TryOnOp.generate (some { base64 := "m", mimeType := "image/png" })
          (some { base64 := "c", mimeType := "image/png" }) FitAdjustment.default ""
          (RemoteOutcome.success (some [{ inlineData := some { data := "g", mimeType := "image/png" } }])),
        TryOnOp.undo, TryOnOp.redo]
      { history := [], historyIndex := -1, errorMsg := none,
        isLoading := false, activeFilter := "none" }) :=
  (cursorStaysInRange
      { history := [], historyIndex := -1, errorMsg := none,
        isLoading := false, activeFilter := "none" }
      (by decide)
      [TryOnOp.generate (some { base64 := "m", mimeType := "image/png" })
          (some { base64 := "c", mimeType := "image/png" }) FitAdjustment.default ""
          (RemoteOutcome.success (some [{ inlineData := some { data := "g", mimeType := "image/png" } }])),
        TryOnOp.undo, TryOnOp.redo]
      []).1

/-- Claim C2: from a valid state with cursor < entries.length - 1 (after
at least one undo), a successful generate in either workflow discards
every entry beyond the old cursor and appends exactly one new entry, so
the new entry list is entries[0..cursor] followed by the single new
data-URL entry, and the cursor becomes the new last index. -/
theorem generateTruncatesRedoBranch (s : WorkflowState) (hs : ValidHistory s)
    (hlt : s.historyIndex < (s.history.length : Int) - 1)
    (mi ci src : Base64File) (bg : Option Base64File)
    (fit : FitAdjustment) (p q : String) (o : RemoteOutcome) (d : String)
    (ho : dressModelResult o = .ok d)
    (hbo : changeBackgroundResult q bg o = .ok d) :
    (handleGenerateTryOn (some mi) (some ci) fit p o s).history
      = s.history.take (s.historyIndex + 1).toNat ++ ["data:image/png;base64," ++ d]
    ∧ (handleGenerateTryOn (some mi) (some ci) fit p o s).historyIndex
      = ((handleGenerateTryOn (some mi) (some ci) fit p o s).history.length : Int) - 1
    ∧ (handleGenerateBgChange (some src) bg q o s).history
      = s.history.take (s.historyIndex + 1).toNat ++ ["data:image/png;base64," ++ d]
    ∧ (handleGenerateBgChange (some src) bg q o s).historyIndex
      = ((handleGenerateBgChange (some src) bg q o s).history.length : Int) - 1 := by
  rcases hs with ⟨hs1, hs2⟩
  have hslice : sliceTo s.history (s.historyIndex + 1)
      = s.history.take (s.historyIndex + 1).toNat := by
    unfold sliceTo
    rw [if_pos (by omega)]
  rw [handleGenerateTryOn_ok mi ci fit p o d s ho,
    handleGenerateBgChange_ok src bg q o d s (bgOk_appGuard q bg o d hbo) hbo]
  unfold genSuccessState
  rw [hslice]
  exact ⟨rfl, rfl, rfl, rfl⟩

/-- Concrete inputs exercising generateTruncatesRedoBranch: a two-entry
history with the cursor on the first entry; the redo branch (second
entry) is discarded. -/
theorem generateTruncatesRedoBranch_witness :
    (handleGenerateTryOn (some { base64 := "m", mimeType := "image/png" })
        (some { base64 := "c", mimeType := "image/png" }) FitAdjustment.default ""
        (RemoteOutcome.success (some [{ inlineData := some { data := "g", mimeType := "image/jpeg" } }]))
        { history := ["data:image/png;base64,a", "data:image/png;base64,b"],
          historyIndex := 0, errorMsg := none, isLoading := false,
          activeFilter := "none" }).history
      = ["data:image/png;base64,a", "data:image/png;base64,b"].take 1
          ++ ["data:image/png;base64," ++ "g"] :=
  (generateTruncatesRedoBranch
      { history := ["data:image/png;base64,a", "data:image/png;base64,b"],
        historyIndex := 0, errorMsg := none, isLoading := false,
        activeFilter := "none" }
      (by decide) (by decide)
      { base64 := "m", mimeType := "image/png" }
      { base64 := "c", mimeType := "image/png" }
      { base64 := "s", mimeType := "image/png" } none
      FitAdjustment.default "" "a beach"
      (RemoteOutcome.success (some [{ inlineData := some { data := "g", mimeType := "image/jpeg" } }]))
      "g" rfl rfl).1

/-- A reachable valid state (two entries, cursor on the first, as after
generate, generate, undo) on which the undo/redo round trip fails. -/
def undoRedoCounterState : WorkflowState :=
  { history := ["data:image/png;base64,a", "data:image/png;base64,b"]
    historyIndex := 0
    errorMsg := none
    isLoading := false
    activeFilter := "none" }

/-- Claim C3 as stated is false: with entries = [a, b] and cursor = 0,
undo is a no-op (the guard is cursor > 0) but redo still increments, so
undo followed by redo displays entry b instead of the previously
current entry a. -/
theorem undoRedoCounterexample :
    resultImage (handleRedo (handleUndo undoRedoCounterState))
      ≠ resultImage undoRedoCounterState := by decide

/-- Claim C3 amended: provided the cursor is positive and in range
(0 < cursor ≤ entries.length - 1, i.e. the undo actually moves), undo
followed by redo (with no generate in between) restores the cursor, the
entry list and hence the current entry exactly. -/
theorem undoRedoRoundTrip (s : WorkflowState)
    (h0 : 0 < s.historyIndex)
    (h1 : s.historyIndex ≤ (s.history.length : Int) - 1) :
    resultImage (handleRedo (handleUndo s)) = resultImage s
    ∧ (handleRedo (handleUndo s)).historyIndex = s.historyIndex
    ∧ (handleRedo (handleUndo s)).history = s.history := by
  have hu : handleUndo s
      = { s with historyIndex := s.historyIndex - 1, activeFilter := "none" } := by
    unfold handleUndo
    rw [if_pos h0]
  rw [hu]
  have hr : handleRedo { s with historyIndex := s.historyIndex - 1, activeFilter := "none" }
      = { s with historyIndex := s.historyIndex - 1 + 1, activeFilter := "none" } := by
    unfold handleRedo
    rw [if_pos (by show s.historyIndex - 1 < (s.history.length : Int) - 1; omega)]
  rw [hr]
  have harith : s.historyIndex - 1 + 1 = s.historyIndex := by omega
  rw [harith]
  exact ⟨rfl, rfl, rfl⟩

/-- Concrete inputs exercising undoRedoRoundTrip: two entries with the
cursor on the last one. -/
theorem undoRedoRoundTrip_witness :
    resultImage (handleRedo (handleUndo
        { history := ["data:image/png;base64,a", "data:image/png;base64,b"],
          historyIndex := 1, errorMsg := none, isLoading := false,
          activeFilter := "none" }))
      = resultImage
        { history := ["data:image/png;base64,a", "data:image/png;base64,b"],
          historyIndex := 1, errorMsg := none, isLoading := false,
          activeFilter := "none" } :=
  (undoRedoRoundTrip
      { history := ["data:image/png;base64,a", "data:image/png;base64,b"],
        historyIndex := 1, errorMsg := none, isLoading := false,
        activeFilter := "none" }
      (by decide) (by decide)).1

/-- Claim C4: whenever required inputs are missing (try-on: model or
clothing image absent; background-change: source absent, or background
image absent with an empty/whitespace prompt), generate sets only the
validation error message and returns: the result is a state with the
same entries, cursor and loading flag, and it does not depend on the
remote outcome o (no remote call is made); likewise the Generation
Client itself rejects background-change requests that carry neither a
background image nor non-whitespace text before any remote call. -/
theorem validationRejectsSynchronously (s : WorkflowState)
    (fit : FitAdjustment) (p : String) (o : RemoteOutcome)
    (mi ci bg : Option Base64File) :
    handleGenerateTryOn none ci fit p o s
      = { s with errorMsg := some tryOnValidationMsg }
    ∧ handleGenerateTryOn mi none fit p o s
      = { s with errorMsg := some tryOnValidationMsg }
    ∧ handleGenerateBgChange none bg p o s
      = { s with errorMsg := some bgSourceValidationMsg }
    ∧ (∀ src : Base64File, jsTrim p = "" →
        handleGenerateBgChange (some src) none p o s
          = { s with errorMsg := some bgPromptValidationMsg })
    ∧ (jsTrim p = "" → changeBackgroundResult p none o = .error bgGuardMsg) := by
  refine ⟨?_, ?_, ?_, ?_, ?_⟩
  · unfold handleGenerateTryOn
    rw [if_pos (Or.inl rfl)]
  · unfold handleGenerateTryOn
    rw [if_pos (Or.inr rfl)]
  · unfold handleGenerateBgChange
    rw [if_pos rfl]
  · intro src hp
    unfold handleGenerateBgChange
    rw [if_neg (by simp), if_pos ⟨rfl, hp⟩]
  · intro hp
    exact changeBackground_guardFires p o hp

/-- Concrete inputs exercising validationRejectsSynchronously: an empty
prompt with no background image; the state is untouched apart from the
message, for any remote outcome. -/
theorem validationRejectsSynchronously_witness :
    handleGenerateBgChange (some { base64 := "s", mimeType := "image/png" }) none "  "
        (RemoteOutcome.callError "unreachable")
        { history := ["data:image/png;base64,a"], historyIndex := 0,
          errorMsg := none, isLoading := false, activeFilter := "none" }
      = { history := ["data:image/png;base64,a"], historyIndex := 0,
          errorMsg := some bgPromptValidationMsg, isLoading := false,
          activeFilter := "none" } :=
  ((validationRejectsSynchronously
      { history := ["data:image/png;base64,a"], historyIndex := 0,
        errorMsg := none, isLoading := false, activeFilter := "none" }
      FitAdjustment.default "  " (RemoteOutcome.callError "unreachable")
      none none none).2.2.2.1
    { base64 := "s", mimeType := "image/png" } (by decide))

/-- Claim C5: when a generation attempt reaches the Generation Client
and fails (for any reason the client reports), the handler records the
failure message as the workflow error, clears the loading flag, resets
the filter, and leaves the entry list and cursor exactly as they were,
in both workflows. -/
theorem generationFailureLeavesState (s : WorkflowState)
    (fit : FitAdjustment) (p q : String) (o : RemoteOutcome)
    (mi ci src : Base64File) (bg : Option Base64File) (msg msg2 : String)
    (ho : dressModelResult o = .error msg)
    (hg : ¬ (bg = none ∧ jsTrim q = ""))
    (hbo : changeBackgroundResult q bg o = .error msg2) :
    handleGenerateTryOn (some mi) (some ci) fit p o s
      = { s with errorMsg := some msg, isLoading := false, activeFilter := "none" }
    ∧ handleGenerateBgChange (some src) bg q o s
      = { s with errorMsg := some msg2, isLoading := false, activeFilter := "none" } :=
  ⟨handleGenerateTryOn_err mi ci fit p o msg s ho,
   handleGenerateBgChange_err src bg q o msg2 s hg hbo⟩

/-- Concrete inputs exercising generationFailureLeavesState: a remote
transport error with a one-entry history. -/
theorem generationFailureLeavesState_witness :
    handleGenerateTryOn (some { base64 := "m", mimeType := "image/png" })
        (some { base64 := "c", mimeType := "image/png" }) FitAdjustment.default ""
        (RemoteOutcome.callError "quota exceeded")
        { history := ["data:image/png;base64,a"], historyIndex := 0,
          errorMsg := none, isLoading := false, activeFilter := "none" }
      = { history := ["data:image/png;base64,a"], historyIndex := 0,
          errorMsg := some dressModelGenericMsg, isLoading := false,
          activeFilter := "none" } :=
  (generationFailureLeavesState
      { history := ["data:image/png;base64,a"], historyIndex := 0,
        errorMsg := none, isLoading := false, activeFilter := "none" }
      FitAdjustment.default "" "a beach" (RemoteOutcome.callError "quota exceeded")
      { base64 := "m", mimeType := "image/png" }
      { base64 := "c", mimeType := "image/png" }
      { base64 := "s", mimeType := "image/png" } none
      dressModelGenericMsg bgGenericMsg rfl (by decide) rfl).1

/-- Claim C6 describes the intended behavior, but the code collapses the
two failure modes: the distinct no-image error is thrown inside the try
block of dressModel/changeBackground and is caught by the surrounding
catch, which rethrows the generic wrapped message. Hence the caller
observes the same generic failure message whether the remote call
errored or merely produced no inline image part; only the success
extraction (first part with inline data) matches the claim. -/
theorem failureModesCollapseToGeneric :
    dressModelResult (.callError "network failure") = .error dressModelGenericMsg
    ∧ dressModelResult (.success (some [{ inlineData := none }]))
        = .error dressModelGenericMsg
    ∧ dressModelTryBody (.success (some [{ inlineData := none }]))
        = .error dressModelNoImageMsg
    ∧ dressModelNoImageMsg ≠ dressModelGenericMsg
    ∧ changeBackgroundResult "sunset" none (.callError "network failure")
        = .error bgGenericMsg
    ∧ changeBackgroundResult "sunset" none (.success (some [{ inlineData := none }]))
        = .error bgGenericMsg
    ∧ changeBackgroundTryBody (.success (some [{ inlineData := none }]))
        = .error bgNoImageMsg
    ∧ bgNoImageMsg ≠ bgGenericMsg
    ∧ dressModelResult (.success (some
        [{ inlineData := none },
         { inlineData := some { data := "imgA", mimeType := "image/jpeg" } },
         { inlineData := some { data := "imgB", mimeType := "image/png" } }]))
        = .ok "imgA" :=
  ⟨rfl, rfl, rfl, by decide, rfl, rfl, rfl, by decide, rfl⟩

/-- A JavaScript value successfully produced by JSON.parse of the stored
history value. The intended shape is an array of strings; but parsing
can also yield null, whose .length access throws a TypeError, or any
other value, abstracted here by what its .length property yields: the
number n (a string of length n, or an object carrying a numeric length
field) or undefined (a number, a boolean, or an object with no length
field, such as the empty JSON object). -/
inductive JsValue where
  | arr (entries : List String)
  | nullVal
  | otherWithLength (n : Int)
  | otherNoLength
  deriving Repr, DecidableEq

/-- What durable storage holds under the history key at startup: nothing
(or the empty string, which is falsy), a value JSON.parse throws on, or
a value JSON.parse turns into some JavaScript value — the source never
checks that this value is an array. -/
inductive StoredEntryList where
  | absent
  | unparseable
  | parsed (v : JsValue)
  deriving Repr, DecidableEq

/-- What the .length property access of a parsed value yields: a number,
undefined, or a thrown TypeError (for null). -/
inductive LengthAccess where
  | val (n : Int)
  | lengthUndefined
  | throwsTypeError
  deriving Repr, DecidableEq

/-- The .length access on each parsed value. -/
def jsLength : JsValue → LengthAccess
  | .arr l => .val (l.length : Int)
  | .nullVal => .throwsTypeError
  | .otherWithLength n => .val n
  | .otherNoLength => .lengthUndefined

/-- A JavaScript number that may be NaN (every comparison with NaN is
false, and undefined - 1 is NaN). -/
inductive JsNumber where
  | num (i : Int)
  | nan
  deriving Repr, DecidableEq

/-- What durable storage holds under the index key at startup: nothing,
a non-numeric value (parseInt yields NaN, which fails every comparison),
or a parsed integer. -/
inductive StoredCursor where
  | absentCursor
  | nanCursor
  | storedCursor (i : Int)

/-- The entry-list initializer of useHistoryState: [] when the key is
absent or JSON.parse throws, otherwise whatever value JSON.parse
produced — the code stores it into the string[] state unvalidated. -/
def initHistory (sv : StoredEntryList) : JsValue :=
  match sv with
  | .absent => .arr []
  | .unparseable => .arr []
  | .parsed v => v

/-- savedIndexRaw ? parseInt(savedIndexRaw, 10) : -1, with none standing
for NaN. -/
def parsedCursor (si : StoredCursor) : Option Int :=
  match si with
  | .absentCursor => some (-1)
  | .nanCursor => none
  | .storedCursor i => some i

/-- The index initializer of useHistoryState. Absent storage gives
historyLength 0 and hence -1; a JSON.parse throw lands in the catch
(-1), as does the TypeError from null.length; an undefined length fails
the strict ===0 test and both savedIndex comparisons, so the
initializer returns undefined - 1 = NaN; a numeric length keeps a saved
cursor lying in [0, length) and defaults to length - 1 otherwise. -/
def initHistoryIndex (sv : StoredEntryList) (si : StoredCursor) : JsNumber :=
  match sv with
  | .unparseable => .num (-1)
  | .absent => .num (-1)
  | .parsed v =>
    match jsLength v with
    | .throwsTypeError => .num (-1)
    | .lengthUndefined => .nan
    | .val n =>
      if n = 0 then .num (-1)
      else
        match parsedCursor si with
        | none => .num (n - 1)
        | some savedIndex =>
          if 0 ≤ savedIndex ∧ savedIndex < n then .num savedIndex
          else .num (n - 1)

/-- Claim C7 states the intended degradation, but the code never
validates what JSON.parse returned: when storage holds valid JSON that
is not an array — the failing input is an empty JSON object, or a bare
number — parsing succeeds, the history state becomes that non-array
value rather than the empty entry list, and the index initializer
returns undefined - 1 = NaN, outside [-1, entries.length - 1], whatever
the stored cursor was. Absent and unparseable storage do degrade to
([], -1), stored null yields cursor -1 (its length access throws into
the catch) though the history is null, and a non-empty stored array
clamps an out-of-range, NaN or absent stored cursor to the last index,
as claimed. -/
theorem rehydrationNanOnParseableNonArray :
    initHistory (.parsed .otherNoLength) = JsValue.otherNoLength
    ∧ initHistory (.parsed .otherNoLength) ≠ JsValue.arr []
    ∧ (∀ si : StoredCursor, initHistoryIndex (.parsed .otherNoLength) si = .nan)
    ∧ (∀ i : Int, initHistoryIndex (.parsed (.otherWithLength 0)) (.storedCursor i)
        = .num (-1))
    ∧ initHistory .absent = JsValue.arr []
    ∧ initHistoryIndex .absent .nanCursor = .num (-1)
    ∧ initHistory .unparseable = JsValue.arr []
    ∧ initHistoryIndex .unparseable (.storedCursor 5) = .num (-1)
    ∧ initHistory (.parsed .nullVal) = JsValue.nullVal
    ∧ initHistoryIndex (.parsed .nullVal) (.storedCursor 5) = .num (-1)
    ∧ initHistoryIndex (.parsed (.arr ["a", "b"])) (.storedCursor 7) = .num 1
    ∧ initHistoryIndex (.parsed (.arr ["a", "b"])) (.storedCursor 1) = .num 1
    ∧ initHistoryIndex (.parsed (.arr ["a", "b"])) .nanCursor = .num 1
    ∧ initHistoryIndex (.parsed (.arr ["a", "b"])) .absentCursor = .num 1 :=
  ⟨rfl, by decide, fun si => rfl, fun i => rfl, rfl, rfl, rfl, rfl, rfl, rfl,
   by decide, by decide, by decide, by decide⟩

theorem stringLengthPos (s : String) (h : s ≠ "") : 0 < s.length := by
  rcases s with ⟨l⟩
  cases l with
  | nil => exact absurd rfl h
  | cons c cs => simp [String.length]

set_option maxRecDepth 40000 in
/-- Claim C8: the background-change request builder puts the source
image first; with a background image it is the second part, before the
final text part, whose text is the second-image variant embedding the
user text as additional instructions exactly when it is non-empty; with
no background image the parts are exactly source then text, the
generate-from-description variant with the text embedded verbatim. In
particular with a background image and an empty prompt the part list is
exactly [source, background, text] and the text contains no
additional-instructions clause. -/
theorem backgroundChangePartOrder (src bg : Base64File) (p : String)
    (hp : p ≠ "") :
    changeBackgroundParts src p (some bg)
      = [ReqPart.inlinePart src.base64 src.mimeType,
         ReqPart.inlinePart bg.base64 bg.mimeType,
         ReqPart.textPart (bgImagePromptText p)]
    ∧ changeBackgroundParts src p none
      = [ReqPart.inlinePart src.base64 src.mimeType,
         ReqPart.textPart (bgTextPromptText p)]
    ∧ bgImagePromptText p
      = bgImagePromptSeg1
          ++ (followInstructionsSeg1 ++ p ++ followInstructionsSeg2)
          ++ bgImagePromptSeg2
    ∧ bgImagePromptText ""
      = bgImagePromptSeg1 ++ ensureCompositionClause ++ bgImagePromptSeg2
    ∧ bgTextPromptText p = bgTextPromptSeg1 ++ p ++ bgTextPromptSeg2
    ∧ changeBackgroundParts src "" (some bg)
      = [ReqPart.inlinePart src.base64 src.mimeType,
         ReqPart.inlinePart bg.base64 bg.mimeType,
         ReqPart.textPart (bgImagePromptText "")]
    ∧ strContains (bgImagePromptText "") "Follow these additional user instructions" = false
    ∧ strContains (bgImagePromptText "") "additional" = false := by
  refine ⟨rfl, rfl, ?_, ?_, rfl, rfl, by decide, by decide⟩
  · unfold bgImagePromptText
    rw [if_neg hp]
  · rfl

/-- Concrete inputs exercising backgroundChangePartOrder: a non-empty
prompt together with a background image. -/
theorem backgroundChangePartOrder_witness :
    changeBackgroundParts { base64 := "s", mimeType := "image/png" } "by the sea"
        (some { base64 := "bgimg", mimeType := "image/jpeg" })
      = [ReqPart.inlinePart "s" "image/png",
         ReqPart.inlinePart "bgimg" "image/jpeg",
         ReqPart.textPart (bgImagePromptText "by the sea")] :=
  (backgroundChangePartOrder { base64 := "s", mimeType := "image/png" }
      { base64 := "bgimg", mimeType := "image/jpeg" } "by the sea"
      (by decide)).1

/-- Claim C9: the try-on instruction text is a pure function of
(fit, backgroundPrompt); it is the fixed scaffold with exactly one fit
clause (default yields the empty clause, tighter the form-fitting
sentence, looser the relaxed sentence) and exactly one background
clause (empty or whitespace-only prompt yields the preserve-original
sentence, otherwise the replace-with-description sentence with the user
text embedded verbatim). -/
theorem tryOnPromptClauseStructure (fit : FitAdjustment) (p : String) :
    tryOnPrompt fit p
      = tryOnPromptSeg1 ++ backgroundInstruction p ++ tryOnPromptSeg2
        ++ fitInstruction fit ++ tryOnPromptSeg3
    ∧ fitInstruction .default = ""
    ∧ fitInstruction .tighter
        = "The clothing should be adjusted to have a tighter, more form-fitting appearance on the model."
    ∧ fitInstruction .looser
        = "The clothing should be adjusted to have a looser, more relaxed, and comfortable fit on the model."
    ∧ (jsTrim p = "" → backgroundInstruction p
        = "The original background from the first image must be preserved perfectly.")
    ∧ (jsTrim p ≠ "" → backgroundInstruction p
        = replacedBackgroundSeg1 ++ p ++ replacedBackgroundSeg2) := by
  refine ⟨rfl, rfl, rfl, rfl, ?_, ?_⟩
  · intro h
    unfold backgroundInstruction
    rw [if_neg]
    rintro ⟨-, hlen⟩
    rw [h] at hlen
    exact absurd hlen (by decide)
  · intro h
    have hp : p ≠ "" := by
      intro he
      rw [he] at h
      exact h rfl
    unfold backgroundInstruction
    rw [if_pos ⟨hp, stringLengthPos _ h⟩]

/-- Concrete inputs exercising tryOnPromptClauseStructure: the looser
fit with a whitespace-only background prompt. -/
theorem tryOnPromptClauseStructure_witness :
    tryOnPrompt FitAdjustment.looser "   "
      = tryOnPromptSeg1 ++ backgroundInstruction "   " ++ tryOnPromptSeg2
        ++ fitInstruction FitAdjustment.looser ++ tryOnPromptSeg3
    ∧ backgroundInstruction "   "
      = "The original background from the first image must be preserved perfectly." :=
  ⟨(tryOnPromptClauseStructure FitAdjustment.looser "   ").1,
   (tryOnPromptClauseStructure FitAdjustment.looser "   ").2.2.2.2.1 (by decide)⟩

/-- Claim C10: every entry appended by a successful generate, in either
workflow, is the fixed prefix string for PNG data URLs concatenated
with the base64 string returned by the client, whatever content type
(mt) the remote capability reported for the image part. -/
theorem appendedEntryIsPngDataUrl (s : WorkflowState)
    (fit : FitAdjustment) (p q : String) (mi ci src : Base64File)
    (bg : Option Base64File) (parts : List ResponsePart) (d mt : String)
    (hx : extractImage (some parts) = some { data := d, mimeType := mt })
    (hq : ¬ (bg = none ∧ jsTrim q = "")) :
    (handleGenerateTryOn (some mi) (some ci) fit p
        (.success (some parts)) s).history.getLast?
      = some ("data:image/png;base64," ++ d)
    ∧ (handleGenerateBgChange (some src) bg q
        (.success (some parts)) s).history.getLast?
      = some ("data:image/png;base64," ++ d) := by
  have ho : dressModelResult (.success (some parts)) = .ok d := by
    simp only [dressModelResult, dressModelTryBody]
    rw [hx]
  have hbo : changeBackgroundResult q bg (.success (some parts)) = .ok d := by
    unfold changeBackgroundResult
    rw [if_neg (by
      rintro ⟨hor, hbnone⟩
      apply hq
      refine ⟨hbnone, ?_⟩
      cases hor with
      | inl he => rw [he]; rfl
      | inr he => exact he)]
    simp only [changeBackgroundTryBody]
    rw [hx]
  rw [handleGenerateTryOn_ok mi ci fit p _ d s ho,
    handleGenerateBgChange_ok src bg q _ d s hq hbo]
  unfold genSuccessState
  refine ⟨?_, ?_⟩ <;>
    · rw [List.getLast?_append_cons]
      rfl

/-- Concrete inputs exercising appendedEntryIsPngDataUrl: the remote
part carries a JPEG content type, yet the stored entry is PNG-typed. -/
theorem appendedEntryIsPngDataUrl_witness :
    (handleGenerateTryOn (some { base64 := "m", mimeType := "image/png" })
        (some { base64 := "c", mimeType := "image/png" }) FitAdjustment.default ""
        (RemoteOutcome.success (some [{ inlineData := some { data := "g", mimeType := "image/jpeg" } }]))
        { history := [], historyIndex := -1, errorMsg := none,
          isLoading := false, activeFilter := "none" }).history.getLast?
      = some ("data:image/png;base64," ++ "g") :=
  (appendedEntryIsPngDataUrl
      { history := [], historyIndex := -1, errorMsg := none,
        isLoading := false, activeFilter := "none" }
      FitAdjustment.default "" "a beach"
      { base64 := "m", mimeType := "image/png" }
      { base64 := "c", mimeType := "image/png" }
      { base64 := "s", mimeType := "image/png" } none
      [{ inlineData := some { data := "g", mimeType := "image/jpeg" } }]
      "g" "image/jpeg" rfl (by decide)).1
